import Mathlib

/-!
Verification of `src/tasks.py` (robot-orders automation).

The script drives a browser through an order form, retries submission on a
visible error alert, captures a screenshot and renders a PDF receipt per
order.  The browser, HTTP and PDF libraries are external collaborators, so
they are embedded as oracles/abstract state:

* the per-attempt visibility of the error alert banner is an oracle
  `alertVisible : Nat → Bool` (attempt number, 1-based);
* the page interactions performed by `fill_and_submit_order_form`
  (lines 100-126) are recorded as an event trace `List Ev`;
* the receipt page scraped by `generate_robot_order_receipt` (lines 225-234)
  is a record of the four text fields it reads;
* the filesystem entry a `Path` points to is `Option FsNode`
  (`none` = absent).

All numeric layout computations of `write_receipt_to_pdf` (lines 148-222)
are embedded over `ℚ`; `reportlab`'s A4 constant is `(210*mm, 297*mm)` with
`mm = 72/25.4` points.
-/

/-- Data class `RobotOrder` (tasks.py lines 39-49): one CSV row mapped to an
order record. -/
structure RobotOrder where
  order_number : String
  head : String
  body : String
  legs : String
  address : String

/-- Page interactions of `fill_and_submit_order_form` that the spec counts:
`clickOK` is the intro-modal confirmation click (lines 103-104), `fillForm`
is one fill-and-submit cycle (lines 108-118: select head, check body, fill
legs, fill address, click order, settle wait), `reload` is `page.reload()`
(line 124). -/
inductive Ev where
  | clickOK
  | fillForm
  | reload
deriving DecidableEq

/-- Payload of the `RuntimeError` raised at tasks.py line 126: the message
interpolates the order number and the attempt budget. -/
structure OrderError where
  order_number : String
  attempts : Nat
deriving DecidableEq

/-- Number of occurrences of an event in a trace. -/
def countEv (e : Ev) : List Ev → Nat
  | [] => 0
  | x :: xs => (if x = e then 1 else 0) + countEv e xs

/-- The `for attempt in range(1, attempts + 1)` loop of
`fill_and_submit_order_form` (tasks.py lines 107-126).  `attempt` is the
1-based attempt number, `remaining` the number of attempts still allowed.
Each iteration fills and submits the form; if the error alert is not
visible the function returns, otherwise it reloads the page and continues;
when the budget is exhausted a `RuntimeError` carrying the order number and
the budget is raised. -/
def submitLoopEv (alertVisible : Nat → Bool) (orderNumber : String)
    (totalAttempts : Nat) : Nat → Nat → List Ev × Option OrderError
  | _, 0 => ([], some ⟨orderNumber, totalAttempts⟩)
  | attempt, remaining + 1 =>
    if alertVisible attempt = false then ([Ev.fillForm], none)
    else
      let rest := submitLoopEv alertVisible orderNumber totalAttempts (attempt + 1) remaining
      (Ev.fillForm :: Ev.reload :: rest.1, rest.2)

/-- The function `fill_and_submit_order_form` (tasks.py lines 100-126): it
waits for and clicks the OK button once (lines 103-104) and then runs the
retry loop.  Returns the event trace and the raised error, if any. -/
def fill_and_submit_order_form (alertVisible : Nat → Bool)
    (robot_order : RobotOrder) (attempts : Nat) : List Ev × Option OrderError :=
  let r := submitLoopEv alertVisible robot_order.order_number attempts 1 attempts
  (Ev.clickOK :: r.1, r.2)

/-- The per-row loop of `fill_form_with_csv_data` (tasks.py lines 244-257),
restricted to the submission step: each row calls
`fill_and_submit_order_form` with the default budget 3; an exception
propagates and stops the run.  The alert oracle is keyed by order number.
(The screenshot/receipt steps emit none of the counted events.) -/
def fill_form_with_csv_data (alertVisible : String → Nat → Bool) :
    List RobotOrder → List Ev × Option OrderError
  | [] => ([], none)
  | o :: rest =>
    let r := fill_and_submit_order_form (alertVisible o.order_number) o 3
    match r.2 with
    | some e => (r.1, some e)
    | none =>
      let r2 := fill_form_with_csv_data alertVisible rest
      (r.1 ++ r2.1, r2.2)

lemma submitLoopEv_success_counts (av : Nat → Bool) (num : String) (N : Nat) :
    ∀ (j a remaining : Nat), j < remaining →
    (∀ i, i < j → av (a + i) = true) → av (a + j) = false →
    (submitLoopEv av num N a remaining).2 = none ∧
    countEv Ev.fillForm (submitLoopEv av num N a remaining).1 = j + 1 ∧
    countEv Ev.reload (submitLoopEv av num N a remaining).1 = j := by
  intro j
  induction j with
  | zero =>
    intro a remaining hlt _ hsucc
    match remaining, hlt with
    | r + 1, _ =>
      rw [Nat.add_zero] at hsucc
      simp [submitLoopEv, hsucc, countEv]
  | succ j ih =>
    intro a remaining hlt hfail hsucc
    match remaining, hlt with
    | r + 1, hlt =>
      have ha : av a = true := by
        have := hfail 0 (Nat.succ_pos j)
        rwa [Nat.add_zero] at this
      have hrec := ih (a + 1) r (by omega)
        (fun i hi => by
          have := hfail (i + 1) (by omega)
          have e : a + (i + 1) = a + 1 + i := by omega
          rwa [e] at this)
        (by
          have e : a + 1 + j = a + (j + 1) := by omega
          rwa [e])
      obtain ⟨hr1, hr2, hr3⟩ := hrec
      simp only [submitLoopEv, ha, Bool.true_eq_false, if_false, countEv]
      refine ⟨hr1, ?_, ?_⟩
      · simp
        omega
      · simp
        omega

lemma submitLoopEv_all_fail (av : Nat → Bool) (num : String) (N : Nat) :
    ∀ (remaining a : Nat), (∀ i, i < remaining → av (a + i) = true) →
    (submitLoopEv av num N a remaining).2 = some ⟨num, N⟩ ∧
    countEv Ev.fillForm (submitLoopEv av num N a remaining).1 = remaining ∧
    countEv Ev.reload (submitLoopEv av num N a remaining).1 = remaining := by
  intro remaining
  induction remaining with
  | zero => intro a _; simp [submitLoopEv, countEv]
  | succ r ih =>
    intro a hfail
    have ha : av a = true := by
      have := hfail 0 (Nat.succ_pos r)
      rwa [Nat.add_zero] at this
    have hrec := ih (a + 1) (fun i hi => by
      have := hfail (i + 1) (by omega)
      have e : a + (i + 1) = a + 1 + i := by omega
      rwa [e] at this)
    obtain ⟨hr1, hr2, hr3⟩ := hrec
    simp only [submitLoopEv, ha, Bool.true_eq_false, if_false, countEv]
    refine ⟨hr1, ?_, ?_⟩
    · simp
      omega
    · simp
      omega

lemma countEv_clickOK_submitLoopEv (av : Nat → Bool) (num : String) (N : Nat) :
    ∀ (remaining a : Nat),
    countEv Ev.clickOK (submitLoopEv av num N a remaining).1 = 0 := by
  intro remaining
  induction remaining with
  | zero => intro a; simp [submitLoopEv, countEv]
  | succ r ih =>
    intro a
    by_cases ha : av a = false
    · simp [submitLoopEv, ha, countEv]
    · simp only [submitLoopEv, if_neg ha, countEv]
      simp [ih (a + 1)]

/-- C1.  If the submission first succeeds on attempt k with 1 ≤ k ≤ N (the
error alert is visible after attempts 1..k-1 and not visible after attempt
k), then `fill_and_submit_order_form` returns without error after exactly k
form-fill-and-submit cycles and exactly k-1 page reloads. -/
theorem retry_success_counts (av : Nat → Bool) (o : RobotOrder) (N k : Nat)
    (hk : 1 ≤ k) (hkN : k ≤ N)
    (hfail : ∀ i, 1 ≤ i → i < k → av i = true) (hsucc : av k = false) :
    (fill_and_submit_order_form av o N).2 = none ∧
    countEv Ev.fillForm (fill_and_submit_order_form av o N).1 = k ∧
    countEv Ev.reload (fill_and_submit_order_form av o N).1 = k - 1 := by
  obtain ⟨h1, h2, h3⟩ := submitLoopEv_success_counts av o.order_number N (k - 1) 1 N
    (by omega)
    (fun i hi => hfail (1 + i) (by omega) (by omega))
    (by
      have e : 1 + (k - 1) = k := by omega
      rwa [e])
  unfold fill_and_submit_order_form
  refine ⟨h1, ?_, ?_⟩
  · simp [countEv]
    omega
  · simp [countEv]
    omega

/-- Witness for C1: with an alert that is visible after attempt 1 only,
the call with budget 3 succeeds after 2 fills and 1 reload. -/
theorem retry_success_counts_witness :
    (fill_and_submit_order_form (fun i => i == 1) ⟨"1", "2", "3", "4", "a"⟩ 3).2 = none ∧
    countEv Ev.fillForm
      (fill_and_submit_order_form (fun i => i == 1) ⟨"1", "2", "3", "4", "a"⟩ 3).1 = 2 ∧
    countEv Ev.reload
      (fill_and_submit_order_form (fun i => i == 1) ⟨"1", "2", "3", "4", "a"⟩ 3).1 = 2 - 1 :=
  retry_success_counts (fun i => i == 1) ⟨"1", "2", "3", "4", "a"⟩ 3 2
    (by decide) (by decide)
    (fun i h1 h2 => by
      have : i = 1 := by omega
      subst this
      rfl)
    (by decide)

/-- C2.  If the error alert is visible after every one of the N attempts,
`fill_and_submit_order_form` performs exactly N form-fill-and-submit cycles
and then raises an error carrying the order number of the order and the
attempt count N. -/
theorem retry_exhausted_error (av : Nat → Bool) (o : RobotOrder) (N : Nat)
    (hfail : ∀ i, 1 ≤ i → i ≤ N → av i = true) :
    (fill_and_submit_order_form av o N).2 = some ⟨o.order_number, N⟩ ∧
    countEv Ev.fillForm (fill_and_submit_order_form av o N).1 = N := by
  obtain ⟨h1, h2, h3⟩ := submitLoopEv_all_fail av o.order_number N N 1
    (fun i hi => hfail (1 + i) (by omega) (by omega))
  unfold fill_and_submit_order_form
  refine ⟨h1, ?_⟩
  simp [countEv]
  omega

/-- Witness for C2: with the alert always visible and budget 3, the call
raises the error carrying the order number and 3 after 3 fills. -/
theorem retry_exhausted_error_witness :
    (fill_and_submit_order_form (fun _ => true) ⟨"17", "2", "3", "4", "a"⟩ 3).2 =
      some ⟨"17", 3⟩ ∧
    countEv Ev.fillForm
      (fill_and_submit_order_form (fun _ => true) ⟨"17", "2", "3", "4", "a"⟩ 3).1 = 3 :=
  retry_exhausted_error (fun _ => true) ⟨"17", "2", "3", "4", "a"⟩ 3
    (fun _ _ _ => rfl)

/-- C9.  If the error alert is visible after every one of the N attempts,
the page is reloaded after every failed attempt including the N-th: exactly
N reloads occur before the exhaustion error is raised. -/
theorem retry_exhausted_reloads (av : Nat → Bool) (o : RobotOrder) (N : Nat)
    (hfail : ∀ i, 1 ≤ i → i ≤ N → av i = true) :
    countEv Ev.reload (fill_and_submit_order_form av o N).1 = N := by
  obtain ⟨h1, h2, h3⟩ := submitLoopEv_all_fail av o.order_number N N 1
    (fun i hi => hfail (1 + i) (by omega) (by omega))
  unfold fill_and_submit_order_form
  simp [countEv]
  omega

/-- Witness for C9: with the alert always visible and budget 3, exactly 3
reloads occur. -/
theorem retry_exhausted_reloads_witness :
    countEv Ev.reload
      (fill_and_submit_order_form (fun _ => true) ⟨"9", "2", "3", "4", "a"⟩ 3).1 = 3 :=
  retry_exhausted_reloads (fun _ => true) ⟨"9", "2", "3", "4", "a"⟩ 3
    (fun _ _ _ => rfl)

/-- C6 (amended).  The OK button of the intro modal is waited for and
clicked exactly once per call of `fill_and_submit_order_form`, i.e. once
per order, for every alert oracle and attempt budget. -/
theorem ok_click_once_per_order (av : Nat → Bool) (o : RobotOrder) (N : Nat) :
    countEv Ev.clickOK (fill_and_submit_order_form av o N).1 = 1 := by
  unfold fill_and_submit_order_form
  simp [countEv, countEv_clickOK_submitLoopEv av o.order_number N N 1]

/-- Counterexample to C6 as stated: in a run over two orders that both
succeed on their first attempt, the OK button is clicked twice, not once
per process run. -/
theorem ok_click_per_run_counterexample :
    countEv Ev.clickOK
      (fill_form_with_csv_data (fun _ _ => false)
        [⟨"1", "1", "1", "1", "a"⟩, ⟨"2", "2", "2", "2", "b"⟩]).1 = 2 ∧
    countEv Ev.clickOK
      (fill_form_with_csv_data (fun _ _ => false)
        [⟨"1", "1", "1", "1", "a"⟩, ⟨"2", "2", "2", "2", "b"⟩]).1 ≠ 1 := by
  constructor
  · rfl
  · decide

/-- Unit `mm` of `reportlab.lib.units` in points: one inch is 72 points and
25.4 millimetres. -/
def mm : ℚ := 72 / 25.4

/-- Width of the A4 canvas (`reportlab.lib.pagesizes.A4`), 210 mm in
points; `page_width` at tasks.py line 162. -/
def page_width : ℚ := 210 * mm

/-- Height of the A4 canvas, 297 mm in points; `page_height` at tasks.py
line 162. -/
def page_height : ℚ := 297 * mm

/-- Bound `max_img_width = page_width * 0.8` (tasks.py line 205). -/
def max_img_width : ℚ := page_width * 0.8

/-- Bound `max_img_height = page_height * 0.4` (tasks.py line 206). -/
def max_img_height : ℚ := page_height * 0.4

/-- Scale factor applied to the screenshot in `write_receipt_to_pdf`
(tasks.py line 208): `min(max_img_width / img_width, max_img_height /
img_height, 1.0)`, with Python's three-argument `min` folded from the
left. -/
def imageScale (img_width img_height : ℚ) : ℚ :=
  min (min (max_img_width / img_width) (max_img_height / img_height)) 1

/-- C3.  For every image with positive dimensions the scale factor equals
min(0.8 page_width / img_width, 0.4 page_height / img_height, 1.0); it
never exceeds 1 (no upscaling), and when the image is strictly smaller
than both bounds it is exactly 1. -/
theorem image_scale_formula (w h : ℚ) (hw : 0 < w) (hh : 0 < h) :
    imageScale w h = min (max_img_width / w) (min (max_img_height / h) 1) ∧
    imageScale w h ≤ 1 ∧
    (w < max_img_width → h < max_img_height → imageScale w h = 1) := by
  refine ⟨min_assoc _ _ _, min_le_right _ _, ?_⟩
  intro hwlt hhlt
  have h1 : (1 : ℚ) ≤ max_img_width / w := (one_le_div hw).mpr hwlt.le
  have h2 : (1 : ℚ) ≤ max_img_height / h := (one_le_div hh).mpr hhlt.le
  exact min_eq_right (le_min h1 h2)

/-- Witness for C3: a 100 x 100 image is below both bounds (the bounds are
60480/127 and 42768/127 points) and is not rescaled. -/
theorem image_scale_formula_witness : imageScale 100 100 = 1 :=
  (image_scale_formula 100 100 (by norm_num) (by norm_num)).2.2
    (by norm_num [max_img_width, page_width, mm])
    (by norm_num [max_img_height, page_height, mm])

/-- Tail of the input after the first `>` at or beyond the current
position, mirroring the greedy `[^>]*>` tail of the pattern
`</?div[^>]*>`: consume characters other than `>`, then require `>`. -/
def skipToGt : List Char → Option (List Char)
  | [] => none
  | c :: cs => if c = '>' then some cs else skipToGt cs

/-- Match of the regex `</?div[^>]*>` (tasks.py line 186) anchored at the
head of the input: `<`, an optional `/`, the letters `div`, any characters
other than `>`, then `>`.  Returns the rest of the input after the match. -/
def matchDivTag : List Char → Option (List Char)
  | '<' :: rest =>
    match (match rest with | '/' :: r => r | _ => rest) with
    | 'd' :: 'i' :: 'v' :: r => skipToGt r
    | _ => none
  | _ => none

/-- Left-to-right scan of `re.sub(pattern, "", s)`: at each position the
leftmost match of the div-tag pattern is removed and scanning resumes
after it; otherwise the character is kept.  Each step consumes at least
one character, so fuel equal to the input length suffices. -/
def stripDivTagsAux : Nat → List Char → List Char
  | 0, cs => cs
  | _ + 1, [] => []
  | fuel + 1, c :: cs =>
    match matchDivTag (c :: cs) with
    | some rest => stripDivTagsAux fuel rest
    | none => c :: stripDivTagsAux fuel cs

/-- Removal of every div open/close tag, `re.sub(r"</?div[^>]*>", "", s)`
at tasks.py line 186. -/
def stripDivTags (cs : List Char) : List Char :=
  stripDivTagsAux cs.length cs

/-- Python `str.strip()`: drop whitespace from both ends. -/
def pyStrip (cs : List Char) : List Char :=
  ((cs.dropWhile Char.isWhitespace).reverse.dropWhile Char.isWhitespace).reverse

/-- The cleaned parts markup `clean_order_html` of tasks.py line 186:
div tags stripped, then surrounding whitespace trimmed. -/
def cleanOrderHtml (s : String) : String :=
  String.mk (pyStrip (stripDivTags s.data))

/-- The fixed thank-you paragraph of tasks.py lines 191-194. -/
def thank_you_text : String :=
  "Thank you for your order! We will ship your robot to you as soon as " ++
  "our warehouse robots gather the parts you ordered! You will receive your robot in no time!"

/-- Accumulating scan for `splitWords`: `cur` holds the reversed characters
of the word being read. -/
def wordsAux : List Char → List Char → List String
  | cur, [] => if cur.isEmpty then [] else [String.mk cur.reverse]
  | cur, c :: cs =>
    if c.isWhitespace then
      if cur.isEmpty then wordsAux [] cs
      else String.mk cur.reverse :: wordsAux [] cs
    else wordsAux (c :: cur) cs

/-- Words of a text: maximal runs of non-whitespace characters. -/
def splitWords (s : String) : List String :=
  wordsAux [] s.data

/-- Greedy fill of `textwrap.wrap`: extend the current line with the next
word when the joined length stays within the width, otherwise start a new
line. -/
def wrapGo (width : Nat) : String → List String → List String
  | cur, [] => [cur]
  | cur, w :: ws =>
    if cur.length + 1 + w.length ≤ width then wrapGo width (cur ++ " " ++ w) ws
    else cur :: wrapGo width w ws

/-- Word wrap of a word list to a character width (`textwrap.wrap`,
greedy). -/
def wrapWords (width : Nat) : List String → List String
  | [] => []
  | w :: ws => wrapGo width w ws

/-- The `wrapped_lines = textwrap.wrap(thank_you_text, width=100)` of
tasks.py line 195. -/
def wrapped_lines : List String := wrapWords 100 (splitWords thank_you_text)

/-- The thank-you drawing loop of tasks.py lines 196-200: draw each line at
the current y and step down one line height, but stop for good as soon as
the current y falls below 100.  Returns the (y, line) pairs actually
drawn. -/
def drawThankYou : ℚ → List String → List (ℚ × String)
  | _, [] => []
  | y, line :: rest =>
    if y < 100 then []
    else (y, line) :: drawThankYou (y - 18) rest

/-- One `drawString` call of the reportlab canvas: x, y and the text. -/
structure DrawOp where
  x : ℚ
  y : ℚ
  text : String

/-- The sequence of `drawString` calls of `write_receipt_to_pdf`
(tasks.py lines 164-200): title at 50 points below the top, then the
timestamp, the order id, the address-prefixed cleaned markup, each a line
height of 18 lower, then the wrapped thank-you lines guarded by the
100-point floor. -/
def receiptTextOps (order_id order_timestamp order_html order_address : String) :
    List DrawOp :=
  let y0 : ℚ := page_height - 50
  ⟨50, y0, "Receipt"⟩ ::
  ⟨50, y0 - 18, order_timestamp⟩ ::
  ⟨50, y0 - 18 - 18, order_id⟩ ::
  ⟨50, y0 - 18 - 18 - 18, order_address ++ cleanOrderHtml order_html⟩ ::
  (drawThankYou (y0 - 18 - 18 - 18 - 18) wrapped_lines).map
    (fun p => (⟨50, p.1, p.2⟩ : DrawOp))

/-- Sample parts markup of the spec's cleaning test. -/
def sample_parts_html : String := "<div class=\"x\">A</div><div>B</div>"

/-- C4.  Cleaning the sample markup `<div class="x">A</div><div>B</div>`
yields exactly `AB`, and for every input the fourth drawn line of the
receipt is the address followed directly by the cleaned markup. -/
theorem receipt_markup_clean :
    cleanOrderHtml sample_parts_html = "AB" ∧
    ∀ order_id order_timestamp order_html order_address : String,
      (receiptTextOps order_id order_timestamp order_html order_address)[3]? =
        some ⟨50, page_height - 50 - 18 - 18 - 18,
          order_address ++ cleanOrderHtml order_html⟩ := by
  constructor
  · rfl
  · intro oid ts html addr
    simp [receiptTextOps]

lemma drawThankYou_floor_aux (lines : List String) :
    ∀ y : ℚ, (∀ p ∈ drawThankYou y lines, 100 ≤ p.1) ∧
    ∃ rest, lines = (drawThankYou y lines).map Prod.snd ++ rest := by
  induction lines with
  | nil =>
    intro y
    exact ⟨by simp [drawThankYou], ⟨[], by simp [drawThankYou]⟩⟩
  | cons l ls ih =>
    intro y
    by_cases hy : y < 100
    · refine ⟨?_, ⟨l :: ls, ?_⟩⟩ <;> simp [drawThankYou, hy]
    · obtain ⟨ih1, rest, ihr⟩ := ih (y - 18)
      constructor
      · intro p hp
        simp only [drawThankYou, if_neg hy, List.mem_cons] at hp
        rcases hp with h | h
        · subst h
          exact le_of_not_lt hy
        · exact ih1 p h
      · refine ⟨rest, ?_⟩
        simp only [drawThankYou, if_neg hy, List.map_cons, List.cons_append,
          List.cons.injEq]
        exact ⟨by simp, ihr⟩

/-- C7.  Every thank-you line actually drawn sits at y at least 100, and
the drawn lines are an initial segment of the wrapped lines: once the floor
is reached the remaining lines are dropped, none is drawn below the floor
or carried to a new page. -/
theorem thank_you_floor (y : ℚ) (p : ℚ × String)
    (hp : p ∈ drawThankYou y wrapped_lines) :
    100 ≤ p.1 ∧
    ∃ rest, wrapped_lines = (drawThankYou y wrapped_lines).map Prod.snd ++ rest :=
  ⟨(drawThankYou_floor_aux wrapped_lines y).1 p hp,
   (drawThankYou_floor_aux wrapped_lines y).2⟩

/-- First wrapped line of the thank-you paragraph at width 100. -/
def thank_line_one : String :=
  "Thank you for your order! We will ship your robot to you as soon as our warehouse robots gather the"

/-- Second wrapped line of the thank-you paragraph at width 100. -/
def thank_line_two : String :=
  "parts you ordered! You will receive your robot in no time!"

/-- Witness for C7: starting at y = 500 the first wrapped line is drawn at
y = 500 ≥ 100, and the drawn lines are an initial segment of the wrapped
lines. -/
theorem thank_you_floor_witness :
    (100 : ℚ) ≤ ((500 : ℚ), thank_line_one).1 ∧
    ∃ rest, wrapped_lines = (drawThankYou 500 wrapped_lines).map Prod.snd ++ rest :=
  thank_you_floor 500 (500, thank_line_one) (by
    have hw : wrapped_lines = [thank_line_one, thank_line_two] := by rfl
    have h : drawThankYou 500 wrapped_lines =
        [((500 : ℚ), thank_line_one), ((482 : ℚ), thank_line_two)] := by
      rw [hw]
      norm_num [drawThankYou]
    rw [h]
    exact List.mem_cons_self _ _)

/-- Path of the screenshot written by `save_robot_screenshot` (tasks.py
lines 136-145): `SCREENSHOTS_DIR / f"robot_<order number>.png"`, keyed by
the order number of the `RobotOrder` record. -/
def save_robot_screenshot (robot_order : RobotOrder) : String :=
  "output/screenshots/robot_" ++ robot_order.order_number ++ ".png"

/-- The four receipt fields scraped from the page by
`generate_robot_order_receipt` (tasks.py lines 228-232): the text of the
success badge, the timestamp element, the inner markup of the parts
container, and the address paragraph. -/
structure ReceiptPage where
  badgeText : String
  timestampText : String
  partsHtml : String
  addressText : String

/-- Path of the PDF written by `write_receipt_to_pdf` (tasks.py line 156):
`RECEIPTS_DIR / f"receipt_<order id>.pdf"`, keyed by the `order_id`
argument. -/
def write_receipt_to_pdf_path (order_id : String) : String :=
  "output/receipts/receipt_" ++ order_id ++ ".pdf"

/-- Path of the receipt produced by `generate_robot_order_receipt`
(tasks.py lines 225-234): the order id passed on to the PDF writer is the
text content of the page's success badge, not a field of the `RobotOrder`
record. -/
def generate_robot_order_receipt (page : ReceiptPage) : String :=
  write_receipt_to_pdf_path page.badgeText

/-- Counterexample to C5 as stated: for the order with number 1 whose
result page shows badge text 2, the screenshot is keyed by the record's
number but the receipt is keyed by the badge text, so the receipt path is
not `receipt_1.pdf`. -/
theorem receipt_key_counterexample :
    save_robot_screenshot ⟨"1", "2", "3", "4", "a"⟩ =
      "output/screenshots/robot_1.png" ∧
    generate_robot_order_receipt ⟨"2", "t", "p", "a"⟩ =
      "output/receipts/receipt_2.pdf" ∧
    generate_robot_order_receipt ⟨"2", "t", "p", "a"⟩ ≠
      "output/receipts/receipt_1.pdf" := by
  refine ⟨rfl, rfl, ?_⟩
  decide

/-- C5 (amended).  The screenshot is written at
`output/screenshots/robot_<order_number>.png` with the number taken from
the `RobotOrder` record; the receipt is written at
`output/receipts/receipt_<order_id>.pdf` with the order id read from the
page's success badge, so the two files carry the same key exactly when the
badge text equals the record's order number. -/
theorem receipt_paths_keyed (o : RobotOrder) (page : ReceiptPage)
    (hb : page.badgeText = o.order_number) :
    save_robot_screenshot o =
      "output/screenshots/robot_" ++ o.order_number ++ ".png" ∧
    generate_robot_order_receipt page =
      "output/receipts/receipt_" ++ o.order_number ++ ".pdf" := by
  refine ⟨rfl, ?_⟩
  rw [generate_robot_order_receipt, write_receipt_to_pdf_path, hb]

/-- Witness for C5 (amended): for order number 7 with a matching badge the
two artifact paths share the key 7. -/
theorem receipt_paths_keyed_witness :
    save_robot_screenshot ⟨"7", "2", "3", "4", "a"⟩ =
      "output/screenshots/robot_" ++ "7" ++ ".png" ∧
    generate_robot_order_receipt ⟨"7", "t", "p", "a"⟩ =
      "output/receipts/receipt_" ++ "7" ++ ".pdf" :=
  receipt_paths_keyed ⟨"7", "2", "3", "4", "a"⟩ ⟨"7", "t", "p", "a"⟩ rfl

/-- A filesystem node: a regular file, or a directory with its children.
The entry a path points to is `Option FsNode`, `none` when nothing exists
at the path. -/
inductive FsNode where
  | file : FsNode
  | dir : List FsNode → FsNode

/-- Python `Path.is_dir()`: true exactly on an existing directory. -/
def path_is_dir : Option FsNode → Bool
  | some (FsNode.dir _) => true
  | _ => false

/-- Python `shutil.rmtree`: removes a directory and everything below it;
on a regular file it raises `NotADirectoryError`, on a missing path
`FileNotFoundError`. -/
def rmtree : Option FsNode → Except String (Option FsNode)
  | some (FsNode.dir _) => Except.ok none
  | some FsNode.file => Except.error ("NotADirectoryError")
  | none => Except.error ("FileNotFoundError")

/-- The function `clean_screenshots_dir` (tasks.py lines 75-78): remove
the directory tree only when `Path.is_dir()` holds. -/
def clean_screenshots_dir (entry : Option FsNode) : Except String (Option FsNode) :=
  if path_is_dir entry then rmtree entry else Except.ok entry

/-- The function `clean_receipts_dir` (tasks.py lines 81-84): remove the
directory tree only when `Path.is_dir()` holds. -/
def clean_receipts_dir (entry : Option FsNode) : Except String (Option FsNode) :=
  if path_is_dir entry then rmtree entry else Except.ok entry

/-- C8.  Both cleaners remove an existing directory with all its children
and succeed, and are error-free no-ops when the directory is absent. -/
theorem clean_dirs_spec (children : List FsNode) :
    clean_screenshots_dir (some (FsNode.dir children)) = Except.ok none ∧
    clean_screenshots_dir none = Except.ok none ∧
    clean_receipts_dir (some (FsNode.dir children)) = Except.ok none ∧
    clean_receipts_dir none = Except.ok none :=
  ⟨rfl, rfl, rfl, rfl⟩

/-- C10.  When the path holds a regular file instead of a directory, both
cleaners leave it unchanged and raise no error. -/
theorem clean_dirs_file_untouched :
    clean_screenshots_dir (some FsNode.file) = Except.ok (some FsNode.file) ∧
    clean_receipts_dir (some FsNode.file) = Except.ok (some FsNode.file) :=
  ⟨rfl, rfl⟩
